import Mathlib

/-!
Shallow embedding of the rune mint transaction pipeline from
`src/subcommand/wallet/mint.rs` (entry points `Mint::run` and
`RunesMint::run`) together with the external collaborator interfaces the
pipeline calls (wallet, bitcoin RPC client, runestone codec).

External collaborators (the bitcoin RPC client, the wallet index, the
runestone encipher/decipher codec, the script dust-value computation) are
not part of the two source files; they are modelled as an environment
structure of functions, universally quantified in the theorems, so every
theorem holds for arbitrary behaviour of the collaborators. Fallible
external calls return `Except Nat _` where the `Nat` is an opaque error
code (in the source these are opaque `anyhow` errors propagated with `?`).

Side-effecting calls the pipeline issues (locking non-cardinal outputs,
funding, signing, broadcasting) are recorded in an event trace so that
ordering claims can be stated.
-/

/-- Networks a bitcoin address can belong to (external `bitcoin::Network`). -/
inductive Network where
  | bitcoin
  | testnet
  | signet
  | regtest
deriving DecidableEq, Repr

/-- A bitcoin address, reduced to the data the pipeline uses: the network it
is valid for and its script pubkey (a byte list). -/
structure Address where
  network : Network
  script_pubkey : List Nat
deriving DecidableEq, Repr

/-- A rune id: block height and transaction index pair (`RuneId`). -/
structure RuneId where
  block : Nat
  tx : Nat
deriving DecidableEq, Repr

/-- A spaced rune: the rune (modelled as its numeric value) plus display
spacers, matching `ordinals::SpacedRune`. -/
structure SpacedRune where
  rune : Nat
  spacers : Nat
deriving DecidableEq, Repr

/-- An edict of a runestone (`ordinals::Edict`); the mint pipeline never
constructs one, the field exists so that "no other fields set" is a real
statement about the runestone the pipeline builds. -/
structure Edict where
  id : RuneId
  amount : Nat
  output : Nat
deriving DecidableEq, Repr

/-- A runestone (`ordinals::Runestone`). The mint pipeline constructs
`Runestone { mint: Some(id), ..default() }`, i.e. only the `mint` field is
set; the remaining fields keep their defaults. The etching payload is
irrelevant to the pipeline and is reduced to an opaque `Nat`. -/
structure Runestone where
  edicts : List Edict := []
  etching : Option Nat := none
  mint : Option RuneId := none
  pointer : Option Nat := none
deriving DecidableEq, Repr

/-- Result of deciphering a transaction (`ordinals::Artifact`): either a
well-formed runestone or a cenotaph (reduced to an opaque code). -/
inductive Artifact where
  | runestone (r : Runestone)
  | cenotaph (c : Nat)
deriving DecidableEq, Repr

/-- A transaction output: script pubkey and value in satoshis. -/
structure TxOut where
  script_pubkey : List Nat
  value : Nat
deriving DecidableEq, Repr

/-- A bitcoin transaction, reduced to the fields the pipeline sets and
inspects. Inputs are opaque (the pipeline only builds empty input lists;
funding adds inputs externally). -/
structure Transaction where
  version : Int
  lock_time : Nat
  input : List Nat
  output : List TxOut
deriving DecidableEq, Repr

/-- Modelled from the spec: the error cases of `RuneEntry::mintable`, whose
definition is outside the two source files. The eligibility evaluator fails
with `NotStarted` before the mint window, `Ended` after it, `CapReached`
when the cap is exhausted. -/
inductive MintError where
  | notStarted
  | ended
  | capReached
deriving DecidableEq, Repr

/-- Errors the pipeline itself produces, plus `external` for opaque errors
propagated unchanged from fallible collaborator calls. -/
inductive RunError where
  | indexNotEnabled
  | runeNotEtched (rune : Nat)
  | mintError (rune : Nat) (e : MintError)
  | networkMismatch
  | belowDustLimit (dust : Nat)
  | payloadTooLarge (len : Nat)
  | external (tag : Nat)
deriving DecidableEq, Repr

/-- A rune entry as the pipeline consumes it: display metadata plus the
eligibility evaluation `mintable` (a function of the current block height,
left abstract since its definition is outside the source files). -/
structure RuneEntry where
  divisibility : Nat
  symbol : Option Char
  mintable : Nat → Except MintError Nat

/-- A pile: an amount together with its display metadata. -/
structure Pile where
  amount : Nat
  divisibility : Nat
  symbol : Option Char
deriving DecidableEq, Repr

/-- The success output of `Mint::run` (struct `Output` in the source):
the spaced rune, the minted pile, and the broadcast transaction id. -/
structure MintOutput where
  rune : SpacedRune
  pile : Pile
  mint : Nat
deriving DecidableEq, Repr

/-- Side-effecting collaborator calls the pipeline issues, in the order it
issues them. Pure reads (block count, rune lookup, change address) are not
events. -/
inductive Event where
  | lockNonCardinalOutputs
  | fundRawTransaction (fee_rate : Nat) (tx : Transaction)
  | signRawTransaction (tx_bytes : List Nat)
  | sendRawTransaction (tx : Transaction)
deriving DecidableEq, Repr

/-- Outcome of a pipeline run: success, a recoverable error (`anyhow`
result in the source), or a process-level abort (`assert_eq!` failure). -/
inductive Outcome (α : Type) where
  | ok (a : α)
  | err (e : RunError)
  | panicked
deriving DecidableEq, Repr

/-- The default postage, `TARGET_POSTAGE = 10_000` satoshis (the source
declares the default as `10000sat` in the `--postage` help text). -/
def TARGET_POSTAGE : Nat := 10000

/-- The external collaborators of the pipeline, bundled: the wallet, the
bitcoin RPC client and the runestone codec. Functions are arbitrary; every
fallible call carries an opaque error code. -/
structure Wallet where
  has_rune_index : Bool
  get_block_count : Except Nat Nat
  get_rune : Nat → Except Nat (Option (RuneId × RuneEntry × Option Nat))
  chain_network : Network
  get_change_address : Except Nat Address
  dust_value : List Nat → Nat
  encipher : Runestone → List Nat
  decipher : Transaction → Option Artifact
  lock_non_cardinal_outputs : Except Nat Unit
  fund_raw_transaction : Nat → Transaction → Except Nat (List Nat)
  sign_raw_transaction_with_wallet : List Nat → Except Nat (List Nat)
  deserialize : List Nat → Except Nat Transaction
  send_raw_transaction : Transaction → Except Nat Nat

/-- The external `Address::require_network` check: succeeds with the address
unchanged when it is valid for the given network, fails otherwise. -/
def requireNetwork (a : Address) (n : Network) : Except RunError Address :=
  if a.network = n then .ok a else .error .networkMismatch

/-- Resolution of the destination, `mint.rs` lines 50-53 and 177-180: a
supplied address is validated against the wallet chain's network, an absent
one defaults to the wallet's change address. -/
def resolveDestination (destOpt : Option Address) (wallet : Wallet) :
    Except RunError Address :=
  match destOpt with
  | some destination => requireNetwork destination wallet.chain_network
  | none =>
    match wallet.get_change_address with
    | .error t => .error (.external t)
    | .ok a => .ok a

/-- Everything the shared prefix of the pipeline computes before the
side-effecting tail: the looked-up rune id and entry, the evaluated
mintable amount, the resolved destination, the postage, the runestone and
its enciphered script, and the unfunded transaction. -/
structure BuildCtx where
  id : RuneId
  rune_entry : RuneEntry
  amount : Nat
  destination : Address
  postage : Nat
  runestone : Runestone
  script_pubkey : List Nat
  unfunded_transaction : Transaction

/-- The shared prefix of `Mint::run` (lines 27-88) and `RunesMint::run`
(lines 139-223), which are textually identical: index check, block count,
rune lookup, postage default, mintability evaluation (error wrapped with
the rune), destination resolution, dust check, runestone construction and
enciphering, OP_RETURN size check, unfunded transaction construction. -/
def mintBuild (spacedRune : SpacedRune) (postageOpt : Option Nat)
    (destOpt : Option Address) (wallet : Wallet) : Except RunError BuildCtx :=
  if wallet.has_rune_index = true then
    match wallet.get_block_count with
    | .error t => .error (.external t)
    | .ok block_height =>
      match wallet.get_rune spacedRune.rune with
      | .error t => .error (.external t)
      | .ok none => .error (.runeNotEtched spacedRune.rune)
      | .ok (some (id, rune_entry, _)) =>
        match rune_entry.mintable block_height with
        | .error err => .error (.mintError spacedRune.rune err)
        | .ok amount =>
          match resolveDestination destOpt wallet with
          | .error e => .error e
          | .ok destination =>
            if wallet.dust_value destination.script_pubkey <
                postageOpt.getD TARGET_POSTAGE then
              if (wallet.encipher { mint := some id }).length ≤ 82 then
                .ok
                  { id := id
                    rune_entry := rune_entry
                    amount := amount
                    destination := destination
                    postage := postageOpt.getD TARGET_POSTAGE
                    runestone := { mint := some id }
                    script_pubkey := wallet.encipher { mint := some id }
                    unfunded_transaction :=
                      { version := 2
                        lock_time := 0
                        input := []
                        output :=
                          [{ script_pubkey := wallet.encipher { mint := some id }
                             value := 0 },
                           { script_pubkey := destination.script_pubkey
                             value := postageOpt.getD TARGET_POSTAGE }] } }
              else
                .error (.payloadTooLarge (wallet.encipher { mint := some id }).length)
            else
              .error (.belowDustLimit (wallet.dust_value destination.script_pubkey))
  else
    .error .indexNotEnabled

/-- The CLI entry point's arguments (struct `Mint` in the source): fee rate
(opaque, only forwarded to funding), rune, optional postage in satoshis,
optional destination. -/
structure Mint where
  fee_rate : Nat
  rune : SpacedRune
  postage : Option Nat
  destination : Option Address

/-- The full pipeline `Mint::run`: the shared prefix, then (lines 90-116)
lock non-cardinal outputs, fund, sign, deserialize, assert that the signed
transaction deciphers back to exactly the constructed runestone (a process
abort, not an error, on mismatch), broadcast, and build the output. The
second component is the trace of side-effecting calls issued. -/
def Mint.run (self : Mint) (wallet : Wallet) : Outcome MintOutput × List Event :=
  match mintBuild self.rune self.postage self.destination wallet with
  | .error e => (.err e, [])
  | .ok ctx =>
    match wallet.lock_non_cardinal_outputs with
    | .error t => (.err (.external t), [.lockNonCardinalOutputs])
    | .ok _ =>
      match wallet.fund_raw_transaction self.fee_rate ctx.unfunded_transaction with
      | .error t =>
        (.err (.external t),
         [.lockNonCardinalOutputs,
          .fundRawTransaction self.fee_rate ctx.unfunded_transaction])
      | .ok unsigned_transaction =>
        match wallet.sign_raw_transaction_with_wallet unsigned_transaction with
        | .error t =>
          (.err (.external t),
           [.lockNonCardinalOutputs,
            .fundRawTransaction self.fee_rate ctx.unfunded_transaction,
            .signRawTransaction unsigned_transaction])
        | .ok signed_bytes =>
          match wallet.deserialize signed_bytes with
          | .error t =>
            (.err (.external t),
             [.lockNonCardinalOutputs,
              .fundRawTransaction self.fee_rate ctx.unfunded_transaction,
              .signRawTransaction unsigned_transaction])
          | .ok signed_transaction =>
            if wallet.decipher signed_transaction =
                some (.runestone ctx.runestone) then
              match wallet.send_raw_transaction signed_transaction with
              | .error t =>
                (.err (.external t),
                 [.lockNonCardinalOutputs,
                  .fundRawTransaction self.fee_rate ctx.unfunded_transaction,
                  .signRawTransaction unsigned_transaction,
                  .sendRawTransaction signed_transaction])
              | .ok txid =>
                (.ok
                  { rune := self.rune
                    pile :=
                      { amount := ctx.amount
                        divisibility := ctx.rune_entry.divisibility
                        symbol := ctx.rune_entry.symbol }
                    mint := txid },
                 [.lockNonCardinalOutputs,
                  .fundRawTransaction self.fee_rate ctx.unfunded_transaction,
                  .signRawTransaction unsigned_transaction,
                  .sendRawTransaction signed_transaction])
            else
              (.panicked,
               [.lockNonCardinalOutputs,
                .fundRawTransaction self.fee_rate ctx.unfunded_transaction,
                .signRawTransaction unsigned_transaction])

/-- The HTTP entry point's arguments (struct `RunesMint` in the source),
the same four fields as `Mint`. -/
structure RunesMint where
  fee_rate : Nat
  rune : SpacedRune
  postage : Option Nat
  destination : Option Address

/-- The pipeline `RunesMint::run`: the shared prefix, then (lines 228-235)
lock non-cardinal outputs, fund, and return the raw unsigned transaction
bytes. It performs no signing, no decipher check and no broadcast. -/
def RunesMint.run (self : RunesMint) (wallet : Wallet) :
    Outcome (List Nat) × List Event :=
  match mintBuild self.rune self.postage self.destination wallet with
  | .error e => (.err e, [])
  | .ok ctx =>
    match wallet.lock_non_cardinal_outputs with
    | .error t => (.err (.external t), [.lockNonCardinalOutputs])
    | .ok _ =>
      match wallet.fund_raw_transaction self.fee_rate ctx.unfunded_transaction with
      | .error t =>
        (.err (.external t),
         [.lockNonCardinalOutputs,
          .fundRawTransaction self.fee_rate ctx.unfunded_transaction])
      | .ok unsigned_transaction =>
        (.ok unsigned_transaction,
         [.lockNonCardinalOutputs,
          .fundRawTransaction self.fee_rate ctx.unfunded_transaction])

/-- Whether a trace contains a signing call. -/
def hasSign (tr : List Event) : Bool :=
  tr.any fun e =>
    match e with
    | .signRawTransaction _ => true
    | _ => false

/-- Whether a trace contains a broadcast call. -/
def hasSend (tr : List Event) : Bool :=
  tr.any fun e =>
    match e with
    | .sendRawTransaction _ => true
    | _ => false

/-- Inversion for a successful shared prefix: every check passed and the
context is exactly the record the prefix constructs. -/
theorem mintBuild_ok_elim {spacedRune : SpacedRune} {postageOpt : Option Nat}
    {destOpt : Option Address} {wallet : Wallet} {ctx : BuildCtx}
    (h : mintBuild spacedRune postageOpt destOpt wallet = .ok ctx) :
    ∃ block_height id rune_entry extra amount destination,
      wallet.has_rune_index = true ∧
      wallet.get_block_count = .ok block_height ∧
      wallet.get_rune spacedRune.rune = .ok (some (id, rune_entry, extra)) ∧
      rune_entry.mintable block_height = .ok amount ∧
      resolveDestination destOpt wallet = .ok destination ∧
      wallet.dust_value destination.script_pubkey < postageOpt.getD TARGET_POSTAGE ∧
      (wallet.encipher { mint := some id }).length ≤ 82 ∧
      ctx =
        { id := id
          rune_entry := rune_entry
          amount := amount
          destination := destination
          postage := postageOpt.getD TARGET_POSTAGE
          runestone := { mint := some id }
          script_pubkey := wallet.encipher { mint := some id }
          unfunded_transaction :=
            { version := 2
              lock_time := 0
              input := []
              output :=
                [{ script_pubkey := wallet.encipher { mint := some id }
                   value := 0 },
                 { script_pubkey := destination.script_pubkey
                   value := postageOpt.getD TARGET_POSTAGE }] } } := by
  unfold mintBuild at h
  split at h
  case isTrue hidx =>
    split at h
    next t hbc => simp at h
    next block_height hbc =>
      split at h
      next t hrune => simp at h
      next hrune => simp at h
      next id rune_entry extra hrune =>
        split at h
        next e hmint => simp at h
        next amount hmint =>
          split at h
          next e hdest => simp at h
          next destination hdest =>
            split at h
            next hdust =>
              split at h
              next hlen =>
                injection h with h
                exact ⟨block_height, id, rune_entry, extra, amount, destination,
                  hidx, hbc, hrune, hmint, hdest, hdust, hlen, h.symm⟩
              next hlen => simp at h
            next hdust => simp at h
  case isFalse hidx => simp at h

/-- Reduction of the shared prefix once the index check, block count, rune
lookup, mintability evaluation and destination resolution have succeeded:
what remains is the dust check, the size check, and the construction. -/
theorem mintBuild_eq {spacedRune : SpacedRune} {postageOpt : Option Nat}
    {destOpt : Option Address} {wallet : Wallet} {block_height : Nat}
    {id : RuneId} {rune_entry : RuneEntry} {extra : Option Nat} {amount : Nat}
    {destination : Address}
    (hidx : wallet.has_rune_index = true)
    (hbc : wallet.get_block_count = .ok block_height)
    (hrune : wallet.get_rune spacedRune.rune = .ok (some (id, rune_entry, extra)))
    (hmint : rune_entry.mintable block_height = .ok amount)
    (hdest : resolveDestination destOpt wallet = .ok destination) :
    mintBuild spacedRune postageOpt destOpt wallet =
      if wallet.dust_value destination.script_pubkey <
          postageOpt.getD TARGET_POSTAGE then
        if (wallet.encipher { mint := some id }).length ≤ 82 then
          .ok
            { id := id
              rune_entry := rune_entry
              amount := amount
              destination := destination
              postage := postageOpt.getD TARGET_POSTAGE
              runestone := { mint := some id }
              script_pubkey := wallet.encipher { mint := some id }
              unfunded_transaction :=
                { version := 2
                  lock_time := 0
                  input := []
                  output :=
                    [{ script_pubkey := wallet.encipher { mint := some id }
                       value := 0 },
                     { script_pubkey := destination.script_pubkey
                       value := postageOpt.getD TARGET_POSTAGE }] } }
        else
          .error (.payloadTooLarge (wallet.encipher { mint := some id }).length)
      else
        .error (.belowDustLimit (wallet.dust_value destination.script_pubkey)) := by
  simp only [mintBuild, hidx, hbc, hrune, hmint, hdest, if_true]

/-- Reduction of the shared prefix when the mintability evaluation fails:
the error is wrapped with the rune and returned. -/
theorem mintBuild_mintError {spacedRune : SpacedRune} {postageOpt : Option Nat}
    {destOpt : Option Address} {wallet : Wallet} {block_height : Nat}
    {id : RuneId} {rune_entry : RuneEntry} {extra : Option Nat} {e : MintError}
    (hidx : wallet.has_rune_index = true)
    (hbc : wallet.get_block_count = .ok block_height)
    (hrune : wallet.get_rune spacedRune.rune = .ok (some (id, rune_entry, extra)))
    (hmint : rune_entry.mintable block_height = .error e) :
    mintBuild spacedRune postageOpt destOpt wallet =
      .error (.mintError spacedRune.rune e) := by
  simp only [mintBuild, hidx, hbc, hrune, hmint, if_true]

/-- Exhaustive case analysis of `Mint::run`: every run falls into exactly
one of the eight branches of the pipeline tail, each with its outcome and
its exact event trace. -/
theorem Mint.run_cases (self : Mint) (wallet : Wallet) :
    (∃ e, mintBuild self.rune self.postage self.destination wallet = .error e ∧
      Mint.run self wallet = (.err e, [])) ∨
    (∃ ctx t, mintBuild self.rune self.postage self.destination wallet = .ok ctx ∧
      wallet.lock_non_cardinal_outputs = .error t ∧
      Mint.run self wallet = (.err (.external t), [.lockNonCardinalOutputs])) ∨
    (∃ ctx t, mintBuild self.rune self.postage self.destination wallet = .ok ctx ∧
      wallet.lock_non_cardinal_outputs = .ok () ∧
      wallet.fund_raw_transaction self.fee_rate ctx.unfunded_transaction = .error t ∧
      Mint.run self wallet = (.err (.external t),
        [.lockNonCardinalOutputs,
         .fundRawTransaction self.fee_rate ctx.unfunded_transaction])) ∨
    (∃ ctx u t, mintBuild self.rune self.postage self.destination wallet = .ok ctx ∧
      wallet.lock_non_cardinal_outputs = .ok () ∧
      wallet.fund_raw_transaction self.fee_rate ctx.unfunded_transaction = .ok u ∧
      wallet.sign_raw_transaction_with_wallet u = .error t ∧
      Mint.run self wallet = (.err (.external t),
        [.lockNonCardinalOutputs,
         .fundRawTransaction self.fee_rate ctx.unfunded_transaction,
         .signRawTransaction u])) ∨
    (∃ ctx u s t, mintBuild self.rune self.postage self.destination wallet = .ok ctx ∧
      wallet.lock_non_cardinal_outputs = .ok () ∧
      wallet.fund_raw_transaction self.fee_rate ctx.unfunded_transaction = .ok u ∧
      wallet.sign_raw_transaction_with_wallet u = .ok s ∧
      wallet.deserialize s = .error t ∧
      Mint.run self wallet = (.err (.external t),
        [.lockNonCardinalOutputs,
         .fundRawTransaction self.fee_rate ctx.unfunded_transaction,
         .signRawTransaction u])) ∨
    (∃ ctx u s stx, mintBuild self.rune self.postage self.destination wallet = .ok ctx ∧
      wallet.lock_non_cardinal_outputs = .ok () ∧
      wallet.fund_raw_transaction self.fee_rate ctx.unfunded_transaction = .ok u ∧
      wallet.sign_raw_transaction_with_wallet u = .ok s ∧
      wallet.deserialize s = .ok stx ∧
      wallet.decipher stx ≠ some (.runestone ctx.runestone) ∧
      Mint.run self wallet = (.panicked,
        [.lockNonCardinalOutputs,
         .fundRawTransaction self.fee_rate ctx.unfunded_transaction,
         .signRawTransaction u])) ∨
    (∃ ctx u s stx t, mintBuild self.rune self.postage self.destination wallet = .ok ctx ∧
      wallet.lock_non_cardinal_outputs = .ok () ∧
      wallet.fund_raw_transaction self.fee_rate ctx.unfunded_transaction = .ok u ∧
      wallet.sign_raw_transaction_with_wallet u = .ok s ∧
      wallet.deserialize s = .ok stx ∧
      wallet.decipher stx = some (.runestone ctx.runestone) ∧
      wallet.send_raw_transaction stx = .error t ∧
      Mint.run self wallet = (.err (.external t),
        [.lockNonCardinalOutputs,
         .fundRawTransaction self.fee_rate ctx.unfunded_transaction,
         .signRawTransaction u,
         .sendRawTransaction stx])) ∨
    (∃ ctx u s stx txid, mintBuild self.rune self.postage self.destination wallet = .ok ctx ∧
      wallet.lock_non_cardinal_outputs = .ok () ∧
      wallet.fund_raw_transaction self.fee_rate ctx.unfunded_transaction = .ok u ∧
      wallet.sign_raw_transaction_with_wallet u = .ok s ∧
      wallet.deserialize s = .ok stx ∧
      wallet.decipher stx = some (.runestone ctx.runestone) ∧
      wallet.send_raw_transaction stx = .ok txid ∧
      Mint.run self wallet = (.ok
        { rune := self.rune
          pile :=
            { amount := ctx.amount
              divisibility := ctx.rune_entry.divisibility
              symbol := ctx.rune_entry.symbol }
          mint := txid },
        [.lockNonCardinalOutputs,
         .fundRawTransaction self.fee_rate ctx.unfunded_transaction,
         .signRawTransaction u,
         .sendRawTransaction stx])) := by
  cases hb : mintBuild self.rune self.postage self.destination wallet with
  | error e => exact Or.inl ⟨e, rfl, by simp only [Mint.run, hb]⟩
  | ok ctx =>
    cases hlock : wallet.lock_non_cardinal_outputs with
    | error t =>
      exact Or.inr (Or.inl ⟨ctx, t, rfl, rfl, by simp only [Mint.run, hb, hlock]⟩)
    | ok lockUnit =>
      cases hfund : wallet.fund_raw_transaction self.fee_rate ctx.unfunded_transaction with
      | error t =>
        exact Or.inr (Or.inr (Or.inl
          ⟨ctx, t, rfl, rfl, hfund, by simp only [Mint.run, hb, hlock, hfund]⟩))
      | ok u =>
        cases hsign : wallet.sign_raw_transaction_with_wallet u with
        | error t =>
          exact Or.inr (Or.inr (Or.inr (Or.inl
            ⟨ctx, u, t, rfl, rfl, hfund, hsign,
             by simp only [Mint.run, hb, hlock, hfund, hsign]⟩)))
        | ok s =>
          cases hdeser : wallet.deserialize s with
          | error t =>
            exact Or.inr (Or.inr (Or.inr (Or.inr (Or.inl
              ⟨ctx, u, s, t, rfl, rfl, hfund, hsign, hdeser,
               by simp only [Mint.run, hb, hlock, hfund, hsign, hdeser]⟩))))
          | ok stx =>
            by_cases hdec : wallet.decipher stx = some (.runestone ctx.runestone)
            · cases hsend : wallet.send_raw_transaction stx with
              | error t =>
                refine Or.inr (Or.inr (Or.inr (Or.inr (Or.inr (Or.inr (Or.inl
                  ⟨ctx, u, s, stx, t, rfl, rfl, hfund, hsign, hdeser, hdec, hsend, ?_⟩))))))
                simp only [Mint.run, hb, hlock, hfund, hsign, hdeser, if_pos hdec, hsend]
              | ok txid =>
                refine Or.inr (Or.inr (Or.inr (Or.inr (Or.inr (Or.inr (Or.inr
                  ⟨ctx, u, s, stx, txid, rfl, rfl, hfund, hsign, hdeser, hdec, hsend, ?_⟩))))))
                simp only [Mint.run, hb, hlock, hfund, hsign, hdeser, if_pos hdec, hsend]
            · refine Or.inr (Or.inr (Or.inr (Or.inr (Or.inr (Or.inl
                ⟨ctx, u, s, stx, rfl, rfl, hfund, hsign, hdeser, hdec, ?_⟩)))))
              simp only [Mint.run, hb, hlock, hfund, hsign, hdeser, if_neg hdec]

/-- Exhaustive case analysis of `RunesMint::run`: every run falls into
exactly one of the four branches, each with its outcome and its exact
event trace. -/
theorem RunesMint.runes_run_cases (self : RunesMint) (wallet : Wallet) :
    (∃ e, mintBuild self.rune self.postage self.destination wallet = .error e ∧
      RunesMint.run self wallet = (.err e, [])) ∨
    (∃ ctx t, mintBuild self.rune self.postage self.destination wallet = .ok ctx ∧
      wallet.lock_non_cardinal_outputs = .error t ∧
      RunesMint.run self wallet = (.err (.external t), [.lockNonCardinalOutputs])) ∨
    (∃ ctx t, mintBuild self.rune self.postage self.destination wallet = .ok ctx ∧
      wallet.lock_non_cardinal_outputs = .ok () ∧
      wallet.fund_raw_transaction self.fee_rate ctx.unfunded_transaction = .error t ∧
      RunesMint.run self wallet = (.err (.external t),
        [.lockNonCardinalOutputs,
         .fundRawTransaction self.fee_rate ctx.unfunded_transaction])) ∨
    (∃ ctx u, mintBuild self.rune self.postage self.destination wallet = .ok ctx ∧
      wallet.lock_non_cardinal_outputs = .ok () ∧
      wallet.fund_raw_transaction self.fee_rate ctx.unfunded_transaction = .ok u ∧
      RunesMint.run self wallet = (.ok u,
        [.lockNonCardinalOutputs,
         .fundRawTransaction self.fee_rate ctx.unfunded_transaction])) := by
  cases hb : mintBuild self.rune self.postage self.destination wallet with
  | error e => exact Or.inl ⟨e, rfl, by simp only [RunesMint.run, hb]⟩
  | ok ctx =>
    cases hlock : wallet.lock_non_cardinal_outputs with
    | error t =>
      exact Or.inr (Or.inl ⟨ctx, t, rfl, rfl, by simp only [RunesMint.run, hb, hlock]⟩)
    | ok lockUnit =>
      cases hfund : wallet.fund_raw_transaction self.fee_rate ctx.unfunded_transaction with
      | error t =>
        exact Or.inr (Or.inr (Or.inl
          ⟨ctx, t, rfl, rfl, hfund, by simp only [RunesMint.run, hb, hlock, hfund]⟩))
      | ok u =>
        exact Or.inr (Or.inr (Or.inr
          ⟨ctx, u, rfl, rfl, hfund, by simp only [RunesMint.run, hb, hlock, hfund]⟩))


/-- A funding call in a `Mint::run` trace implies the prefix built a
context, the lock call was issued first (as the head of the trace) and
succeeded, and the funded transaction is exactly the built unfunded
transaction at the requested fee rate. -/
theorem Mint.fund_event_inv (self : Mint) (wallet : Wallet) (fr : Nat)
    (tx : Transaction)
    (h : Event.fundRawTransaction fr tx ∈ (Mint.run self wallet).2) :
    ∃ ctx, mintBuild self.rune self.postage self.destination wallet = .ok ctx ∧
      wallet.lock_non_cardinal_outputs = .ok () ∧
      fr = self.fee_rate ∧ tx = ctx.unfunded_transaction ∧
      ∃ tl, (Mint.run self wallet).2 = Event.lockNonCardinalOutputs :: tl ∧
        Event.fundRawTransaction fr tx ∈ tl := by
  rcases Mint.run_cases self wallet with
    ⟨e, hb, hrun⟩ | ⟨ctx, t, hb, hlock, hrun⟩ |
    ⟨ctx, t, hb, hlock, hfund, hrun⟩ |
    ⟨ctx, u, t, hb, hlock, hfund, hsign, hrun⟩ |
    ⟨ctx, u, s, t, hb, hlock, hfund, hsign, hdeser, hrun⟩ |
    ⟨ctx, u, s, stx, hb, hlock, hfund, hsign, hdeser, hdec, hrun⟩ |
    ⟨ctx, u, s, stx, t, hb, hlock, hfund, hsign, hdeser, hdec, hsend, hrun⟩ |
    ⟨ctx, u, s, stx, txid, hb, hlock, hfund, hsign, hdeser, hdec, hsend, hrun⟩ <;>
    rw [hrun] at h <;> simp at h <;>
    [skip; skip; skip; skip; skip; skip] <;>
    (obtain ⟨h1, h2⟩ := h
     subst h1
     subst h2
     refine ⟨ctx, hb, hlock, rfl, rfl, ?_⟩
     rw [hrun]
     exact ⟨_, rfl, by simp⟩)

/-- A funding call in a `RunesMint::run` trace implies the prefix built a
context, the lock call was issued first (as the head of the trace) and
succeeded, and the funded transaction is exactly the built unfunded
transaction at the requested fee rate. -/
theorem RunesMint.runes_fund_event_inv (self : RunesMint) (wallet : Wallet) (fr : Nat)
    (tx : Transaction)
    (h : Event.fundRawTransaction fr tx ∈ (RunesMint.run self wallet).2) :
    ∃ ctx, mintBuild self.rune self.postage self.destination wallet = .ok ctx ∧
      wallet.lock_non_cardinal_outputs = .ok () ∧
      fr = self.fee_rate ∧ tx = ctx.unfunded_transaction ∧
      ∃ tl, (RunesMint.run self wallet).2 = Event.lockNonCardinalOutputs :: tl ∧
        Event.fundRawTransaction fr tx ∈ tl := by
  rcases RunesMint.runes_run_cases self wallet with
    ⟨e, hb, hrun⟩ | ⟨ctx, t, hb, hlock, hrun⟩ |
    ⟨ctx, t, hb, hlock, hfund, hrun⟩ |
    ⟨ctx, u, hb, hlock, hfund, hrun⟩ <;>
    rw [hrun] at h <;> simp at h <;>
    (obtain ⟨h1, h2⟩ := h
     subst h1
     subst h2
     refine ⟨ctx, hb, hlock, rfl, rfl, ?_⟩
     rw [hrun]
     exact ⟨_, rfl, by simp⟩)

/-- A broadcast call in a `Mint::run` trace implies the whole tail ran: the
prefix built a context, lock, funding and signing succeeded, the broadcast
transaction is the deserialized signed transaction, the consistency check
on it passed, and the trace is exactly lock, fund, sign, send in order. -/
theorem Mint.send_event_inv (self : Mint) (wallet : Wallet) (stx : Transaction)
    (h : Event.sendRawTransaction stx ∈ (Mint.run self wallet).2) :
    ∃ ctx u s, mintBuild self.rune self.postage self.destination wallet = .ok ctx ∧
      wallet.lock_non_cardinal_outputs = .ok () ∧
      wallet.fund_raw_transaction self.fee_rate ctx.unfunded_transaction = .ok u ∧
      wallet.sign_raw_transaction_with_wallet u = .ok s ∧
      wallet.deserialize s = .ok stx ∧
      wallet.decipher stx = some (.runestone ctx.runestone) ∧
      (Mint.run self wallet).2 =
        [Event.lockNonCardinalOutputs,
         Event.fundRawTransaction self.fee_rate ctx.unfunded_transaction,
         Event.signRawTransaction u,
         Event.sendRawTransaction stx] := by
  rcases Mint.run_cases self wallet with
    ⟨e, hb, hrun⟩ | ⟨ctx, t, hb, hlock, hrun⟩ |
    ⟨ctx, t, hb, hlock, hfund, hrun⟩ |
    ⟨ctx, u, t, hb, hlock, hfund, hsign, hrun⟩ |
    ⟨ctx, u, s, t, hb, hlock, hfund, hsign, hdeser, hrun⟩ |
    ⟨ctx, u, s, stx1, hb, hlock, hfund, hsign, hdeser, hdec, hrun⟩ |
    ⟨ctx, u, s, stx1, t, hb, hlock, hfund, hsign, hdeser, hdec, hsend, hrun⟩ |
    ⟨ctx, u, s, stx1, txid, hb, hlock, hfund, hsign, hdeser, hdec, hsend, hrun⟩ <;>
    rw [hrun] at h <;> simp at h <;>
    (subst h
     exact ⟨ctx, u, s, hb, hlock, hfund, hsign, hdeser, hdec, by rw [hrun]⟩)

/-- A successful `Mint::run` outcome implies the whole tail ran and
succeeded: the output's transaction id is the one the broadcaster
returned, the pile is taken from the looked-up entry and the evaluated
amount, and the trace is exactly lock, fund, sign, send in order. -/
theorem Mint.ok_inv (self : Mint) (wallet : Wallet) (res : MintOutput)
    (h : (Mint.run self wallet).1 = .ok res) :
    ∃ ctx u s stx txid,
      mintBuild self.rune self.postage self.destination wallet = .ok ctx ∧
      wallet.lock_non_cardinal_outputs = .ok () ∧
      wallet.fund_raw_transaction self.fee_rate ctx.unfunded_transaction = .ok u ∧
      wallet.sign_raw_transaction_with_wallet u = .ok s ∧
      wallet.deserialize s = .ok stx ∧
      wallet.decipher stx = some (.runestone ctx.runestone) ∧
      wallet.send_raw_transaction stx = .ok txid ∧
      res =
        { rune := self.rune
          pile :=
            { amount := ctx.amount
              divisibility := ctx.rune_entry.divisibility
              symbol := ctx.rune_entry.symbol }
          mint := txid } ∧
      (Mint.run self wallet).2 =
        [Event.lockNonCardinalOutputs,
         Event.fundRawTransaction self.fee_rate ctx.unfunded_transaction,
         Event.signRawTransaction u,
         Event.sendRawTransaction stx] := by
  rcases Mint.run_cases self wallet with
    ⟨e, hb, hrun⟩ | ⟨ctx, t, hb, hlock, hrun⟩ |
    ⟨ctx, t, hb, hlock, hfund, hrun⟩ |
    ⟨ctx, u, t, hb, hlock, hfund, hsign, hrun⟩ |
    ⟨ctx, u, s, t, hb, hlock, hfund, hsign, hdeser, hrun⟩ |
    ⟨ctx, u, s, stx, hb, hlock, hfund, hsign, hdeser, hdec, hrun⟩ |
    ⟨ctx, u, s, stx, t, hb, hlock, hfund, hsign, hdeser, hdec, hsend, hrun⟩ |
    ⟨ctx, u, s, stx, txid, hb, hlock, hfund, hsign, hdeser, hdec, hsend, hrun⟩ <;>
    rw [hrun] at h <;> simp at h <;>
    (subst h
     exact ⟨ctx, u, s, stx, txid, hb, hlock, hfund, hsign, hdeser, hdec, hsend,
       rfl, by rw [hrun]⟩)

/-- A successful network validation returns the address unchanged, and the
address's network is the requested one. -/
theorem requireNetwork_ok_elim {a : Address} {n : Network} {dest : Address}
    (h : requireNetwork a n = .ok dest) : dest = a ∧ a.network = n := by
  unfold requireNetwork at h
  split at h
  next hn => exact ⟨(Except.ok.inj h).symm, hn⟩
  next hn => simp at h

/-- Destination resolution without a supplied address succeeds exactly with
the wallet's change address. -/
theorem resolveDestination_none_elim {wallet : Wallet} {dest : Address}
    (h : resolveDestination none wallet = .ok dest) :
    wallet.get_change_address = .ok dest := by
  simp only [resolveDestination] at h
  split at h
  next t hc => simp at h
  next a hc => rw [hc, Except.ok.inj h]

/-- An error outcome of `Mint::run` is either an error of the shared
prefix, passed through unchanged, or an opaque error propagated from a
collaborator call in the tail. -/
theorem Mint.run_err_inv (self : Mint) (wallet : Wallet) (e : RunError)
    (h : (Mint.run self wallet).1 = .err e) :
    mintBuild self.rune self.postage self.destination wallet = .error e ∨
      ∃ t, e = .external t := by
  rcases Mint.run_cases self wallet with
    ⟨e1, hb, hrun⟩ | ⟨ctx, t, hb, hlock, hrun⟩ |
    ⟨ctx, t, hb, hlock, hfund, hrun⟩ |
    ⟨ctx, u, t, hb, hlock, hfund, hsign, hrun⟩ |
    ⟨ctx, u, s, t, hb, hlock, hfund, hsign, hdeser, hrun⟩ |
    ⟨ctx, u, s, stx, hb, hlock, hfund, hsign, hdeser, hdec, hrun⟩ |
    ⟨ctx, u, s, stx, t, hb, hlock, hfund, hsign, hdeser, hdec, hsend, hrun⟩ |
    ⟨ctx, u, s, stx, txid, hb, hlock, hfund, hsign, hdeser, hdec, hsend, hrun⟩ <;>
    rw [hrun] at h <;> simp at h
  · rw [h] at hb; exact Or.inl hb
  · exact Or.inr ⟨t, h.symm⟩
  · exact Or.inr ⟨t, h.symm⟩
  · exact Or.inr ⟨t, h.symm⟩
  · exact Or.inr ⟨t, h.symm⟩
  · exact Or.inr ⟨t, h.symm⟩

/-- An error outcome of `RunesMint::run` is either an error of the shared
prefix, passed through unchanged, or an opaque error propagated from a
collaborator call in the tail. -/
theorem RunesMint.runes_run_err_inv (self : RunesMint) (wallet : Wallet) (e : RunError)
    (h : (RunesMint.run self wallet).1 = .err e) :
    mintBuild self.rune self.postage self.destination wallet = .error e ∨
      ∃ t, e = .external t := by
  rcases RunesMint.runes_run_cases self wallet with
    ⟨e1, hb, hrun⟩ | ⟨ctx, t, hb, hlock, hrun⟩ |
    ⟨ctx, t, hb, hlock, hfund, hrun⟩ |
    ⟨ctx, u, hb, hlock, hfund, hrun⟩ <;>
    rw [hrun] at h <;> simp at h
  · rw [h] at hb; exact Or.inl hb
  · exact Or.inr ⟨t, h.symm⟩
  · exact Or.inr ⟨t, h.symm⟩

/-- A `RunesMint::run` trace never contains a signing or broadcast call. -/
theorem RunesMint.run_no_sign_send (self : RunesMint) (wallet : Wallet) :
    hasSign (RunesMint.run self wallet).2 = false ∧
    hasSend (RunesMint.run self wallet).2 = false := by
  rcases RunesMint.runes_run_cases self wallet with
    ⟨e1, hb, hrun⟩ | ⟨ctx, t, hb, hlock, hrun⟩ |
    ⟨ctx, t, hb, hlock, hfund, hrun⟩ |
    ⟨ctx, u, hb, hlock, hfund, hrun⟩ <;>
    rw [hrun] <;> exact ⟨rfl, rfl⟩

/-- Sample rune id used by the concrete environments below. -/
def id0 : RuneId := { block := 840000, tx := 1 }

/-- Sample spaced rune whose numeric rune value is 7. -/
def spaced0 : SpacedRune := { rune := 7, spacers := 0 }

/-- Sample rune entry whose eligibility evaluation always succeeds with
amount 100. -/
def entry0 : RuneEntry :=
  { divisibility := 2, symbol := some 'R', mintable := fun _ => .ok 100 }

/-- Sample rune entry whose mint window has ended: eligibility evaluation
always fails with `Ended`. -/
def entryEnded : RuneEntry :=
  { divisibility := 2, symbol := some 'R', mintable := fun _ => .error .ended }

/-- Sample mainnet change address. -/
def addr0 : Address := { network := .bitcoin, script_pubkey := [0, 20] }

/-- Sample testnet address, used against a mainnet wallet. -/
def addrT : Address := { network := .testnet, script_pubkey := [0, 21] }

/-- The unfunded transaction the pipeline builds in the sample
environment: runestone output first with value 0, change-address output
second with the default postage. -/
def unfunded0 : Transaction :=
  { version := 2
    lock_time := 0
    input := []
    output :=
      [{ script_pubkey := [106, 93], value := 0 },
       { script_pubkey := [0, 20], value := 10000 }] }

/-- The signed transaction the sample environment's deserializer returns. -/
def signed0 : Transaction :=
  { version := 2
    lock_time := 0
    input := [3]
    output :=
      [{ script_pubkey := [106, 93], value := 0 },
       { script_pubkey := [0, 20], value := 10000 },
       { script_pubkey := [0, 22], value := 5000 }] }

/-- Sample environment in which every collaborator call succeeds: rune 7
is etched with `id0`/`entry0`, the dust value of every script is 330, the
codec produces the two-byte script `[106, 93]`, and the signed transaction
deciphers back to the constructed runestone. -/
def wallet0 : Wallet :=
  { has_rune_index := true
    get_block_count := .ok 840001
    get_rune := fun r => if r = 7 then .ok (some (id0, entry0, none)) else .ok none
    chain_network := .bitcoin
    get_change_address := .ok addr0
    dust_value := fun _ => 330
    encipher := fun _ => [106, 93]
    decipher := fun tx =>
      if tx = signed0 then some (.runestone { mint := some id0 }) else none
    lock_non_cardinal_outputs := .ok ()
    fund_raw_transaction := fun _ _ => .ok [1, 2, 3]
    sign_raw_transaction_with_wallet := fun b => .ok (4 :: b)
    deserialize := fun _ => .ok signed0
    send_raw_transaction := fun _ => .ok 99 }

/-- Sample environment identical to `wallet0` except that rune 7's mint
window has ended. -/
def walletEnded : Wallet :=
  { wallet0 with
    get_rune := fun r =>
      if r = 7 then .ok (some (id0, entryEnded, none)) else .ok none }

/-- The context the shared prefix builds for `spaced0` with no postage and
no destination supplied, in the `wallet0` environment. -/
def ctx0 : BuildCtx :=
  { id := id0
    rune_entry := entry0
    amount := 100
    destination := addr0
    postage := 10000
    runestone := { mint := some id0 }
    script_pubkey := [106, 93]
    unfunded_transaction := unfunded0 }

/-- Sample CLI request: fee rate 5, rune `spaced0`, no postage, no
destination. -/
def mint0 : Mint :=
  { fee_rate := 5, rune := spaced0, postage := none, destination := none }

/-- Sample HTTP request with the same fields as `mint0`. -/
def rm0 : RunesMint :=
  { fee_rate := 5, rune := spaced0, postage := none, destination := none }

/-- The output `Mint::run` produces in the sample environment. -/
def res0 : MintOutput :=
  { rune := spaced0
    pile := { amount := 100, divisibility := 2, symbol := some 'R' }
    mint := 99 }

/-- C2: every unfunded transaction the pipeline builds has exactly two
outputs in fixed order — the enciphered runestone script with value 0
first, the destination's script with value postage second — and an empty
input list; and both entry points hand exactly this built transaction to
the funding call. -/
theorem c2_skeleton_shape (wallet : Wallet) :
    (∀ (spacedRune : SpacedRune) (postageOpt : Option Nat)
        (destOpt : Option Address) (ctx : BuildCtx),
      mintBuild spacedRune postageOpt destOpt wallet = .ok ctx →
        ctx.unfunded_transaction.input = [] ∧
        ctx.unfunded_transaction.output =
          [{ script_pubkey := wallet.encipher ctx.runestone, value := 0 },
           { script_pubkey := ctx.destination.script_pubkey,
             value := ctx.postage }]) ∧
    (∀ (self : Mint) (fr : Nat) (tx : Transaction),
      Event.fundRawTransaction fr tx ∈ (Mint.run self wallet).2 →
        ∃ ctx, mintBuild self.rune self.postage self.destination wallet = .ok ctx ∧
          tx = ctx.unfunded_transaction) ∧
    (∀ (self : RunesMint) (fr : Nat) (tx : Transaction),
      Event.fundRawTransaction fr tx ∈ (RunesMint.run self wallet).2 →
        ∃ ctx, mintBuild self.rune self.postage self.destination wallet = .ok ctx ∧
          tx = ctx.unfunded_transaction) := by
  refine ⟨?_, ?_, ?_⟩
  · intro spacedRune postageOpt destOpt ctx h
    obtain ⟨bh, id, entry, extra, amount, dest, h1, h2, h3, h4, h5, h6, h7, hctx⟩ :=
      mintBuild_ok_elim h
    subst hctx
    exact ⟨rfl, rfl⟩
  · intro self fr tx h
    obtain ⟨ctx, hb, hlock, h1, h2, _⟩ := Mint.fund_event_inv self wallet fr tx h
    exact ⟨ctx, hb, h2⟩
  · intro self fr tx h
    obtain ⟨ctx, hb, hlock, h1, h2, _⟩ := RunesMint.runes_fund_event_inv self wallet fr tx h
    exact ⟨ctx, hb, h2⟩

/-- Witness for C2 at the sample environment: the prefix builds `ctx0` and
its transaction has the claimed shape. -/
theorem c2_skeleton_shape_witness :
    mintBuild spaced0 none none wallet0 = .ok ctx0 ∧
    (ctx0.unfunded_transaction.input = [] ∧
     ctx0.unfunded_transaction.output =
       [{ script_pubkey := wallet0.encipher ctx0.runestone, value := 0 },
        { script_pubkey := ctx0.destination.script_pubkey,
          value := ctx0.postage }]) :=
  ⟨rfl, (c2_skeleton_shape wallet0).1 spaced0 none none ctx0 rfl⟩

/-- C9: every unfunded transaction the pipeline builds has version 2 and
lock time zero. -/
theorem c9_version_and_locktime {spacedRune : SpacedRune}
    {postageOpt : Option Nat} {destOpt : Option Address} {wallet : Wallet}
    {ctx : BuildCtx}
    (h : mintBuild spacedRune postageOpt destOpt wallet = .ok ctx) :
    ctx.unfunded_transaction.version = 2 ∧
    ctx.unfunded_transaction.lock_time = 0 := by
  obtain ⟨bh, id, entry, extra, amount, dest, h1, h2, h3, h4, h5, h6, h7, hctx⟩ :=
    mintBuild_ok_elim h
  subst hctx
  exact ⟨rfl, rfl⟩

/-- Witness for C9 at the sample environment. -/
theorem c9_version_and_locktime_witness :
    mintBuild spaced0 none none wallet0 = .ok ctx0 ∧
    (ctx0.unfunded_transaction.version = 2 ∧
     ctx0.unfunded_transaction.lock_time = 0) :=
  ⟨rfl, @c9_version_and_locktime spaced0 none none wallet0 ctx0 rfl⟩

/-- C8: the built context's postage is the supplied one, defaulting to
`TARGET_POSTAGE` when absent, and its destination is the supplied address
(used unchanged) or, when absent, the wallet's change address. -/
theorem c8_defaults {spacedRune : SpacedRune} {postageOpt : Option Nat}
    {destOpt : Option Address} {wallet : Wallet} {ctx : BuildCtx}
    (h : mintBuild spacedRune postageOpt destOpt wallet = .ok ctx) :
    ctx.postage = postageOpt.getD TARGET_POSTAGE ∧
    (postageOpt = none → ctx.postage = TARGET_POSTAGE) ∧
    (∀ v, postageOpt = some v → ctx.postage = v) ∧
    (∀ a, destOpt = some a → ctx.destination = a) ∧
    (destOpt = none → wallet.get_change_address = .ok ctx.destination) := by
  obtain ⟨bh, id, entry, extra, amount, dest, h1, h2, h3, h4, h5, h6, h7, hctx⟩ :=
    mintBuild_ok_elim h
  subst hctx
  refine ⟨rfl, ?_, ?_, ?_, ?_⟩
  · intro hp; rw [hp]; rfl
  · intro v hp; rw [hp]; rfl
  · intro a hd
    rw [hd] at h5
    have h5a : requireNetwork a wallet.chain_network = .ok dest := h5
    exact (requireNetwork_ok_elim h5a).1
  · intro hd
    rw [hd] at h5
    exact resolveDestination_none_elim h5

/-- Witness for C8 at the sample environment with both options absent. -/
theorem c8_defaults_witness :
    mintBuild spaced0 none none wallet0 = .ok ctx0 ∧
    ctx0.postage = TARGET_POSTAGE ∧
    wallet0.get_change_address = .ok ctx0.destination :=
  ⟨rfl, (@c8_defaults spaced0 none none wallet0 ctx0 rfl).2.1 rfl,
   (@c8_defaults spaced0 none none wallet0 ctx0 rfl).2.2.2.2 rfl⟩

/-- C6: when the eligibility evaluation of the looked-up entry at the
current block height fails, both entry points return that error wrapped
with the rune, with an empty trace: no locking, funding, signing or
broadcast call is made. -/
theorem c6_eligibility_error (fr : Nat) (spacedRune : SpacedRune)
    (postageOpt : Option Nat) (destOpt : Option Address) (wallet : Wallet)
    {block_height : Nat} {id : RuneId} {rune_entry : RuneEntry}
    {extra : Option Nat} {e : MintError}
    (hidx : wallet.has_rune_index = true)
    (hbc : wallet.get_block_count = .ok block_height)
    (hrune : wallet.get_rune spacedRune.rune = .ok (some (id, rune_entry, extra)))
    (hmint : rune_entry.mintable block_height = .error e) :
    Mint.run
      { fee_rate := fr, rune := spacedRune, postage := postageOpt,
        destination := destOpt } wallet =
      (.err (.mintError spacedRune.rune e), []) ∧
    RunesMint.run
      { fee_rate := fr, rune := spacedRune, postage := postageOpt,
        destination := destOpt } wallet =
      (.err (.mintError spacedRune.rune e), []) := by
  have hb := @mintBuild_mintError spacedRune postageOpt destOpt wallet
    block_height id rune_entry extra e hidx hbc hrune hmint
  exact ⟨by simp only [Mint.run, hb], by simp only [RunesMint.run, hb]⟩

/-- Witness for C6: in the environment whose rune 7 has an ended mint
window, the CLI run fails with the wrapped error and an empty trace. -/
theorem c6_eligibility_error_witness :
    walletEnded.has_rune_index = true ∧
    walletEnded.get_block_count = .ok 840001 ∧
    walletEnded.get_rune spaced0.rune = .ok (some (id0, entryEnded, none)) ∧
    entryEnded.mintable 840001 = .error .ended ∧
    Mint.run mint0 walletEnded = (.err (.mintError 7 .ended), []) :=
  ⟨rfl, rfl, rfl, rfl,
   (c6_eligibility_error 5 spaced0 none none walletEnded rfl rfl rfl rfl).1⟩

/-- The shared prefix fails with `networkMismatch` when the supplied
destination address is not valid for the wallet chain's network, whatever
the postage is. -/
theorem mintBuild_networkMismatch {spacedRune : SpacedRune}
    {postageOpt : Option Nat} {a : Address} {wallet : Wallet}
    {block_height : Nat} {id : RuneId} {rune_entry : RuneEntry}
    {extra : Option Nat} {amount : Nat}
    (hidx : wallet.has_rune_index = true)
    (hbc : wallet.get_block_count = .ok block_height)
    (hrune : wallet.get_rune spacedRune.rune = .ok (some (id, rune_entry, extra)))
    (hmint : rune_entry.mintable block_height = .ok amount)
    (hnet : a.network ≠ wallet.chain_network) :
    mintBuild spacedRune postageOpt (some a) wallet = .error .networkMismatch := by
  have hd : resolveDestination (some a) wallet = .error .networkMismatch := by
    simp only [resolveDestination, requireNetwork, if_neg hnet]
  simp only [mintBuild, hidx, hbc, hrune, hmint, hd, if_true]

/-- C10: a supplied destination address for a different network makes both
entry points fail with the network-validation error and an empty trace —
before the dust check (whatever the postage), before any transaction is
constructed, and before any wallet output is locked. -/
theorem c10_network_checked (fr : Nat) (spacedRune : SpacedRune)
    (postageOpt : Option Nat) (a : Address) (wallet : Wallet)
    {block_height : Nat} {id : RuneId} {rune_entry : RuneEntry}
    {extra : Option Nat} {amount : Nat}
    (hidx : wallet.has_rune_index = true)
    (hbc : wallet.get_block_count = .ok block_height)
    (hrune : wallet.get_rune spacedRune.rune = .ok (some (id, rune_entry, extra)))
    (hmint : rune_entry.mintable block_height = .ok amount)
    (hnet : a.network ≠ wallet.chain_network) :
    Mint.run
      { fee_rate := fr, rune := spacedRune, postage := postageOpt,
        destination := some a } wallet = (.err .networkMismatch, []) ∧
    RunesMint.run
      { fee_rate := fr, rune := spacedRune, postage := postageOpt,
        destination := some a } wallet = (.err .networkMismatch, []) := by
  have hb := @mintBuild_networkMismatch spacedRune postageOpt a wallet
    block_height id rune_entry extra amount hidx hbc hrune hmint hnet
  exact ⟨by simp only [Mint.run, hb], by simp only [RunesMint.run, hb]⟩

/-- Witness for C10: a testnet address against the mainnet sample
environment fails with the network error and an empty trace, for a postage
far above dust. -/
theorem c10_network_checked_witness :
    addrT.network ≠ wallet0.chain_network ∧
    Mint.run
      { fee_rate := 5, rune := spaced0, postage := some 50000,
        destination := some addrT } wallet0 = (.err .networkMismatch, []) :=
  ⟨by decide,
   (c10_network_checked 5 spaced0 (some 50000) addrT wallet0 rfl rfl rfl rfl
     (by decide)).1⟩

/-- C3: once the steps before the dust check succeed, both entry points
reject with the below-dust-limit error (carrying the dust value computed
from the destination script) exactly when the postage is not strictly
greater than that dust value; postage strictly above it passes the dust
check. -/
theorem c3_dust_check (fr : Nat) (spacedRune : SpacedRune)
    (postageOpt : Option Nat) (destOpt : Option Address) (wallet : Wallet)
    {block_height : Nat} {id : RuneId} {rune_entry : RuneEntry}
    {extra : Option Nat} {amount : Nat} {destination : Address}
    (hidx : wallet.has_rune_index = true)
    (hbc : wallet.get_block_count = .ok block_height)
    (hrune : wallet.get_rune spacedRune.rune = .ok (some (id, rune_entry, extra)))
    (hmint : rune_entry.mintable block_height = .ok amount)
    (hdest : resolveDestination destOpt wallet = .ok destination) :
    ((Mint.run
        { fee_rate := fr, rune := spacedRune, postage := postageOpt,
          destination := destOpt } wallet).1 =
        .err (.belowDustLimit (wallet.dust_value destination.script_pubkey)) ↔
      postageOpt.getD TARGET_POSTAGE ≤
        wallet.dust_value destination.script_pubkey) ∧
    ((RunesMint.run
        { fee_rate := fr, rune := spacedRune, postage := postageOpt,
          destination := destOpt } wallet).1 =
        .err (.belowDustLimit (wallet.dust_value destination.script_pubkey)) ↔
      postageOpt.getD TARGET_POSTAGE ≤
        wallet.dust_value destination.script_pubkey) := by
  have heq := @mintBuild_eq spacedRune postageOpt destOpt wallet block_height
    id rune_entry extra amount destination hidx hbc hrune hmint hdest
  constructor
  · constructor
    · intro h
      rcases Mint.run_err_inv _ wallet _ h with hb | ⟨t, ht⟩
      · dsimp only at hb
        by_contra hc
        rw [heq, if_pos (not_le.mp hc)] at hb
        split at hb <;> simp at hb
      · simp at ht
    · intro hle
      have hb : mintBuild spacedRune postageOpt destOpt wallet =
          .error (.belowDustLimit (wallet.dust_value destination.script_pubkey)) := by
        rw [heq, if_neg (not_lt.mpr hle)]
      simp only [Mint.run, hb]
  · constructor
    · intro h
      rcases RunesMint.runes_run_err_inv _ wallet _ h with hb | ⟨t, ht⟩
      · dsimp only at hb
        by_contra hc
        rw [heq, if_pos (not_le.mp hc)] at hb
        split at hb <;> simp at hb
      · simp at ht
    · intro hle
      have hb : mintBuild spacedRune postageOpt destOpt wallet =
          .error (.belowDustLimit (wallet.dust_value destination.script_pubkey)) := by
        rw [heq, if_neg (not_lt.mpr hle)]
      simp only [RunesMint.run, hb]

/-- Witness for C3 at the sample environment, with a postage of 200
against a dust value of 330. -/
theorem c3_dust_check_witness :
    resolveDestination none wallet0 = .ok addr0 ∧
    ((Mint.run
        { fee_rate := 5, rune := spaced0, postage := some 200,
          destination := none } wallet0).1 =
        .err (.belowDustLimit (wallet0.dust_value addr0.script_pubkey)) ↔
      (some 200 : Option Nat).getD TARGET_POSTAGE ≤
        wallet0.dust_value addr0.script_pubkey) :=
  ⟨rfl, (c3_dust_check 5 spaced0 (some 200) none wallet0 rfl rfl rfl rfl rfl).1⟩

/-- C4: once the steps before the size check succeed (dust check
included), both entry points reject with the payload-too-large error
exactly when the enciphered runestone script exceeds 82 bytes; an
oversized script fails the run with an empty trace, before any transaction
is built, while a script of at most 82 bytes proceeds carried in full
(never truncated) as the first output. -/
theorem c4_payload_size (fr : Nat) (spacedRune : SpacedRune)
    (postageOpt : Option Nat) (destOpt : Option Address) (wallet : Wallet)
    {block_height : Nat} {id : RuneId} {rune_entry : RuneEntry}
    {extra : Option Nat} {amount : Nat} {destination : Address}
    (hidx : wallet.has_rune_index = true)
    (hbc : wallet.get_block_count = .ok block_height)
    (hrune : wallet.get_rune spacedRune.rune = .ok (some (id, rune_entry, extra)))
    (hmint : rune_entry.mintable block_height = .ok amount)
    (hdest : resolveDestination destOpt wallet = .ok destination)
    (hdust : wallet.dust_value destination.script_pubkey <
      postageOpt.getD TARGET_POSTAGE) :
    ((Mint.run
        { fee_rate := fr, rune := spacedRune, postage := postageOpt,
          destination := destOpt } wallet).1 =
        .err (.payloadTooLarge (wallet.encipher { mint := some id }).length) ↔
      82 < (wallet.encipher { mint := some id }).length) ∧
    ((RunesMint.run
        { fee_rate := fr, rune := spacedRune, postage := postageOpt,
          destination := destOpt } wallet).1 =
        .err (.payloadTooLarge (wallet.encipher { mint := some id }).length) ↔
      82 < (wallet.encipher { mint := some id }).length) ∧
    (82 < (wallet.encipher { mint := some id }).length →
      Mint.run
        { fee_rate := fr, rune := spacedRune, postage := postageOpt,
          destination := destOpt } wallet =
        (.err (.payloadTooLarge (wallet.encipher { mint := some id }).length),
         []) ∧
      RunesMint.run
        { fee_rate := fr, rune := spacedRune, postage := postageOpt,
          destination := destOpt } wallet =
        (.err (.payloadTooLarge (wallet.encipher { mint := some id }).length),
         [])) ∧
    ((wallet.encipher { mint := some id }).length ≤ 82 →
      ∃ ctx, mintBuild spacedRune postageOpt destOpt wallet = .ok ctx ∧
        ctx.script_pubkey = wallet.encipher { mint := some id } ∧
        ctx.unfunded_transaction.output.head? =
          some { script_pubkey := wallet.encipher { mint := some id },
                 value := 0 }) := by
  have heq := @mintBuild_eq spacedRune postageOpt destOpt wallet block_height
    id rune_entry extra amount destination hidx hbc hrune hmint hdest
  refine ⟨?_, ?_, ?_, ?_⟩
  · constructor
    · intro h
      rcases Mint.run_err_inv _ wallet _ h with hb | ⟨t, ht⟩
      · dsimp only at hb
        by_contra hc
        rw [heq, if_pos hdust, if_pos (not_lt.mp hc)] at hb
        simp at hb
      · simp at ht
    · intro hgt
      have hb : mintBuild spacedRune postageOpt destOpt wallet =
          .error (.payloadTooLarge (wallet.encipher { mint := some id }).length) := by
        rw [heq, if_pos hdust, if_neg (not_le.mpr hgt)]
      simp only [Mint.run, hb]
  · constructor
    · intro h
      rcases RunesMint.runes_run_err_inv _ wallet _ h with hb | ⟨t, ht⟩
      · dsimp only at hb
        by_contra hc
        rw [heq, if_pos hdust, if_pos (not_lt.mp hc)] at hb
        simp at hb
      · simp at ht
    · intro hgt
      have hb : mintBuild spacedRune postageOpt destOpt wallet =
          .error (.payloadTooLarge (wallet.encipher { mint := some id }).length) := by
        rw [heq, if_pos hdust, if_neg (not_le.mpr hgt)]
      simp only [RunesMint.run, hb]
  · intro hgt
    have hb : mintBuild spacedRune postageOpt destOpt wallet =
        .error (.payloadTooLarge (wallet.encipher { mint := some id }).length) := by
      rw [heq, if_pos hdust, if_neg (not_le.mpr hgt)]
    exact ⟨by simp only [Mint.run, hb], by simp only [RunesMint.run, hb]⟩
  · intro hle
    refine ⟨{ id := id
              rune_entry := rune_entry
              amount := amount
              destination := destination
              postage := postageOpt.getD TARGET_POSTAGE
              runestone := { mint := some id }
              script_pubkey := wallet.encipher { mint := some id }
              unfunded_transaction :=
                { version := 2
                  lock_time := 0
                  input := []
                  output :=
                    [{ script_pubkey := wallet.encipher { mint := some id }
                       value := 0 },
                     { script_pubkey := destination.script_pubkey
                       value := postageOpt.getD TARGET_POSTAGE }] } },
      ?_, rfl, rfl⟩
    rw [heq, if_pos hdust, if_pos hle]

/-- Witness for C4 at the sample environment, whose enciphered script has
length 2. -/
theorem c4_payload_size_witness :
    wallet0.dust_value addr0.script_pubkey <
      (none : Option Nat).getD TARGET_POSTAGE ∧
    (wallet0.encipher { mint := some id0 }).length ≤ 82 ∧
    (∃ ctx, mintBuild spaced0 none none wallet0 = .ok ctx ∧
      ctx.script_pubkey = wallet0.encipher { mint := some id0 } ∧
      ctx.unfunded_transaction.output.head? =
        some { script_pubkey := wallet0.encipher { mint := some id0 },
               value := 0 }) :=
  ⟨by decide, by decide,
   (c4_payload_size 5 spaced0 none none wallet0 rfl rfl rfl rfl rfl
     (by decide)).2.2.2 (by decide)⟩

/-- C7: in every run of either entry point, whenever a funding call
appears in the trace, the non-cardinal-output lock call was issued before
it (it is the head of the trace) and succeeded. -/
theorem c7_lock_before_fund (wallet : Wallet) :
    (∀ (self : Mint) (fr : Nat) (tx : Transaction),
      Event.fundRawTransaction fr tx ∈ (Mint.run self wallet).2 →
        wallet.lock_non_cardinal_outputs = .ok () ∧
        ∃ tl, (Mint.run self wallet).2 = Event.lockNonCardinalOutputs :: tl ∧
          Event.fundRawTransaction fr tx ∈ tl) ∧
    (∀ (self : RunesMint) (fr : Nat) (tx : Transaction),
      Event.fundRawTransaction fr tx ∈ (RunesMint.run self wallet).2 →
        wallet.lock_non_cardinal_outputs = .ok () ∧
        ∃ tl, (RunesMint.run self wallet).2 = Event.lockNonCardinalOutputs :: tl ∧
          Event.fundRawTransaction fr tx ∈ tl) := by
  constructor
  · intro self fr tx h
    obtain ⟨ctx, hb, hlock, h1, h2, htl⟩ := Mint.fund_event_inv self wallet fr tx h
    exact ⟨hlock, htl⟩
  · intro self fr tx h
    obtain ⟨ctx, hb, hlock, h1, h2, htl⟩ := RunesMint.runes_fund_event_inv self wallet fr tx h
    exact ⟨hlock, htl⟩

/-- Witness for C7 at the sample environment. -/
theorem c7_lock_before_fund_witness :
    Event.fundRawTransaction 5 unfunded0 ∈ (Mint.run mint0 wallet0).2 ∧
    (wallet0.lock_non_cardinal_outputs = .ok () ∧
     ∃ tl, (Mint.run mint0 wallet0).2 = Event.lockNonCardinalOutputs :: tl ∧
       Event.fundRawTransaction 5 unfunded0 ∈ tl) :=
  ⟨by decide, (c7_lock_before_fund wallet0).1 mint0 5 unfunded0 (by decide)⟩

/-- Environment identical to `wallet0` except that deciphering never
recovers a runestone, so the consistency check before broadcast fails. -/
def walletMismatch : Wallet := { wallet0 with decipher := fun _ => none }

/-- C1: before broadcasting, `Mint::run` deciphers the signed transaction
and asserts the result is exactly the runestone constructed earlier in the
run (mint set to the looked-up id, no other fields). On a mismatch the run
ends in a process-level abort (`panicked`, not a recoverable error) with
no broadcast call in the trace; and in any run of the pipeline, a
broadcast transaction always deciphers back to that runestone. -/
theorem c1_consistency_check (self : Mint) (wallet : Wallet) (ctx : BuildCtx)
    (u s : List Nat) (stx : Transaction)
    (hb : mintBuild self.rune self.postage self.destination wallet = .ok ctx)
    (hlock : wallet.lock_non_cardinal_outputs = .ok ())
    (hfund : wallet.fund_raw_transaction self.fee_rate ctx.unfunded_transaction = .ok u)
    (hsign : wallet.sign_raw_transaction_with_wallet u = .ok s)
    (hdeser : wallet.deserialize s = .ok stx) :
    (wallet.decipher stx ≠ some (.runestone ctx.runestone) →
      Mint.run self wallet =
        (.panicked,
         [Event.lockNonCardinalOutputs,
          Event.fundRawTransaction self.fee_rate ctx.unfunded_transaction,
          Event.signRawTransaction u])) ∧
    (∀ (self2 : Mint) (wallet2 : Wallet) (stx2 : Transaction),
      Event.sendRawTransaction stx2 ∈ (Mint.run self2 wallet2).2 →
        ∃ id rune_entry extra,
          wallet2.get_rune self2.rune.rune = .ok (some (id, rune_entry, extra)) ∧
          wallet2.decipher stx2 = some (.runestone { mint := some id })) := by
  constructor
  · intro hne
    simp only [Mint.run, hb, hlock, hfund, hsign, hdeser, if_neg hne]
  · intro self2 wallet2 stx2 h
    obtain ⟨ctx2, u2, s2, hb2, hlock2, hfund2, hsign2, hdeser2, hdec2, htr⟩ :=
      Mint.send_event_inv self2 wallet2 stx2 h
    obtain ⟨bh, id, entry, extra, amount, dest, h1, h2, h3, h4, h5, h6, h7, hctx⟩ :=
      mintBuild_ok_elim hb2
    subst hctx
    exact ⟨id, entry, extra, h3, hdec2⟩

/-- Witness for C1 at the mismatching environment: the tail reaches the
consistency check and the run aborts with `panicked`, broadcasting
nothing. -/
theorem c1_consistency_check_witness :
    mintBuild mint0.rune mint0.postage mint0.destination walletMismatch = .ok ctx0 ∧
    Mint.run mint0 walletMismatch =
      (.panicked,
       [Event.lockNonCardinalOutputs,
        Event.fundRawTransaction 5 unfunded0,
        Event.signRawTransaction [1, 2, 3]]) :=
  ⟨rfl,
   (c1_consistency_check mint0 walletMismatch ctx0 [1, 2, 3] [4, 1, 2, 3]
     signed0 rfl rfl rfl rfl rfl).1 (by decide)⟩

/-- Counterexample to C5 as stated: a concrete `RunesMint::run` reaches
the funded state (the funding call appears in the trace and succeeded) yet
issues no signing and no broadcast call — it succeeds with the raw
unsigned transaction instead. -/
theorem c5_counterexample :
    RunesMint.run rm0 wallet0 =
      (.ok [1, 2, 3],
       [Event.lockNonCardinalOutputs, Event.fundRawTransaction 5 unfunded0]) ∧
    wallet0.fund_raw_transaction 5 unfunded0 = .ok [1, 2, 3] ∧
    hasSign (RunesMint.run rm0 wallet0).2 = false ∧
    hasSend (RunesMint.run rm0 wallet0).2 = false :=
  ⟨rfl, rfl, rfl, rfl⟩

/-- C5 (amended): in `Mint::run`, every run that produces the mint result
signed and then broadcast (in that order, as the last two trace events),
the result's transaction id is the one the broadcaster returned, and any
broadcast call is preceded by the signing call in the same fixed trace;
`RunesMint::run` stops at the funded state and never signs or
broadcasts. -/
theorem c5_sign_then_broadcast (wallet : Wallet) :
    (∀ (self : Mint) (res : MintOutput),
      (Mint.run self wallet).1 = .ok res →
        ∃ ctx u s stx txid,
          mintBuild self.rune self.postage self.destination wallet = .ok ctx ∧
          wallet.sign_raw_transaction_with_wallet u = .ok s ∧
          wallet.deserialize s = .ok stx ∧
          wallet.send_raw_transaction stx = .ok txid ∧
          res.mint = txid ∧
          (Mint.run self wallet).2 =
            [Event.lockNonCardinalOutputs,
             Event.fundRawTransaction self.fee_rate ctx.unfunded_transaction,
             Event.signRawTransaction u,
             Event.sendRawTransaction stx]) ∧
    (∀ (self : Mint) (stx2 : Transaction),
      Event.sendRawTransaction stx2 ∈ (Mint.run self wallet).2 →
        ∃ (ctx : BuildCtx) (u : List Nat),
          (Mint.run self wallet).2 =
            [Event.lockNonCardinalOutputs,
             Event.fundRawTransaction self.fee_rate ctx.unfunded_transaction,
             Event.signRawTransaction u,
             Event.sendRawTransaction stx2]) ∧
    (∀ (self : RunesMint),
      hasSign (RunesMint.run self wallet).2 = false ∧
      hasSend (RunesMint.run self wallet).2 = false) := by
  refine ⟨?_, ?_, ?_⟩
  · intro self res h
    obtain ⟨ctx, u, s, stx, txid, hb, hlock, hfund, hsign, hdeser, hdec, hsend,
      hres, htr⟩ := Mint.ok_inv self wallet res h
    exact ⟨ctx, u, s, stx, txid, hb, hsign, hdeser, hsend, by rw [hres], htr⟩
  · intro self stx2 h
    obtain ⟨ctx, u, s, hb, hlock, hfund, hsign, hdeser, hdec, htr⟩ :=
      Mint.send_event_inv self wallet stx2 h
    exact ⟨ctx, u, htr⟩
  · intro self
    exact RunesMint.run_no_sign_send self wallet

/-- Witness for the amended C5 at the sample environment: the successful
CLI run signed, broadcast, and reported the broadcaster's transaction
id. -/
theorem c5_sign_then_broadcast_witness :
    (Mint.run mint0 wallet0).1 = .ok res0 ∧
    (∃ ctx u s stx txid,
      mintBuild mint0.rune mint0.postage mint0.destination wallet0 = .ok ctx ∧
      wallet0.sign_raw_transaction_with_wallet u = .ok s ∧
      wallet0.deserialize s = .ok stx ∧
      wallet0.send_raw_transaction stx = .ok txid ∧
      res0.mint = txid ∧
      (Mint.run mint0 wallet0).2 =
        [Event.lockNonCardinalOutputs,
         Event.fundRawTransaction mint0.fee_rate ctx.unfunded_transaction,
         Event.signRawTransaction u,
         Event.sendRawTransaction stx]) :=
  ⟨rfl, (c5_sign_then_broadcast wallet0).1 mint0 res0 rfl⟩
